import Mathlib

/-!
Verification of the Toonify image-transformation backend.

The repository carries two parallel processing stacks:

* a services stack: `backend/app/services/image_processing.py`
  (class `ImageProcessor`), `backend/app/services/image_job.py`
  (class `ImageJobService`) and `backend/app/models/image_job.py`
  (`ImageJob`, `JobStatus`, `ImageStyle`); embedded below under
  namespace `Services`;
* an engine stack: `backend/app/image_processing/processor.py`
  (class `ImageProcessor`) driven by `backend/app/routers/images.py`;
  embedded below under namespaces `Engine` and `Routers`.

Numeric embedding conventions: 8-bit pixel samples are natural numbers
(uint8 values are bounded by 255 at the call sites that matter, and no
embedded expression underflows); Python `int(x)` on a non-negative exact
quotient is natural-number floor division; parameter values coming from
a JSON parameter map are arbitrary Python integers, embedded as `ℤ`,
and Python's bitwise `|` on integers is two's-complement bitwise or,
which is `Int.lor`.
-/

namespace Toonify

/-- Job status values, from `JobStatus` in `backend/app/models/image_job.py`
(lines 25-30): QUEUED, PROCESSING, DONE, FAILED. -/
inductive JobStatus where
  | queued
  | processing
  | done
  | failed
deriving DecidableEq, Repr

/-- Shallow state of an `ImageJob` row (`backend/app/models/image_job.py`
lines 33-64): the mutable fields touched by the job lifecycle. `output_path`
and `error_message` are nullable columns, `processed_at` is a nullable
timestamp (time abstracted to `ℕ`), and `is_hd_unlocked` is the
single-character string column defaulting to `"N"` (line 60), set to `"Y"`
by the payment service. -/
structure ImageJob where
  style : String
  status : JobStatus := .queued
  output_path : Option String := none
  error_message : Option String := none
  processed_at : Option Nat := none
  is_hd_unlocked : String := "N"
deriving DecidableEq, Repr

namespace Services

/-- Outcome of the processing attempt inside one
`ImageJobService.process_job` call: either `ImageProcessor.process_image`
returns an output path (success, with the current time for
`processed_at`), or some step of the attempt raises an exception whose
string rendering becomes the captured message. -/
inductive Attempt where
  | success (outputPath : String) (now : Nat)
  | failure (msg : String)
deriving DecidableEq, Repr

/-- Decidable test for a successful attempt. -/
def Attempt.isSuccess : Attempt → Bool
  | .success _ _ => true
  | .failure _ => false

/-- Decidable test for a failed attempt. -/
def Attempt.isFailure : Attempt → Bool
  | .success _ _ => false
  | .failure _ => true

/-- Embeds `ImageJobService.create_job` (`backend/app/services/image_job.py`
lines 64-87): a fresh job starts QUEUED with null output path, null error
message and null processed timestamp. -/
def create_job (style : String) : ImageJob :=
  { style := style
    status := .queued
    output_path := none
    error_message := none
    processed_at := none
    is_hd_unlocked := "N" }

/-- Embeds `ImageJobService.process_job` (`backend/app/services/image_job.py`
lines 89-125). The call first sets the status to PROCESSING, then attempts
the processing; on success it sets `output_path` to the freshly generated
path, status to DONE and `processed_at` to now; on any exception it sets
status to FAILED and captures the message in `error_message`. The success
branch does not touch `error_message`, and the failure branch does not
touch `output_path` or `processed_at` — exactly as in the source, where
neither field is ever reset. The transient PROCESSING status is internal
to the call, so the post-state of the call is the relevant one. -/
def process_job (job : ImageJob) (a : Attempt) : ImageJob :=
  match a with
  | .success p now => { job with output_path := some p, status := .done, processed_at := some now }
  | .failure m => { job with status := .failed, error_message := some m }

/-- State of a job after `create_job` followed by a sequence of
`process_job` calls with the given attempt outcomes. -/
def run_job (style : String) (as : List Attempt) : ImageJob :=
  as.foldl process_job (create_job style)

/-- Tags for the six effect methods installed in the `style_methods`
dictionary of `ImageProcessor.process_image`
(`backend/app/services/image_processing.py` lines 290-297). -/
inductive Effect where
  | cartoon
  | sketch
  | colorPencil
  | oilPainting
  | watercolor
  | popArt
deriving DecidableEq, Repr

/-- Style ids of the `ImageStyle` enum (`backend/app/models/image_job.py`
lines 15-22), the keys of the services dispatch table. -/
def style_ids : List String :=
  ["cartoon", "sketch", "color_pencil", "oil_painting", "watercolor", "pop_art"]

/-- Embeds the `style_methods` dictionary lookup
`style_methods.get(style)` of `ImageProcessor.process_image`
(`backend/app/services/image_processing.py` lines 290-299). `ImageStyle`
is a `str` enum, so lookup by a raw string compares against the six
member values; any other id yields `None`. -/
def style_methods (style : String) : Option Effect :=
  if style = "cartoon" then some .cartoon
  else if style = "sketch" then some .sketch
  else if style = "color_pencil" then some .colorPencil
  else if style = "oil_painting" then some .oilPainting
  else if style = "watercolor" then some .watercolor
  else if style = "pop_art" then some .popArt
  else none

/-- Raw caller-supplied parameter map for the cartoon effect, restricted
to the six keys that `cartoon_effect` reads
(`backend/app/services/image_processing.py` lines 77-86). `none` means
the key is absent, so `p.update(params)` leaves the default; unknown keys
added by `update` are never read by the method, hence not modelled. -/
structure CartoonRaw where
  blur_kernel_size : Option Int := none
  threshold_block_size : Option Int := none
  threshold_c : Option Int := none
  bilateral_d : Option Int := none
  bilateral_sigma_color : Option Int := none
  bilateral_sigma_space : Option Int := none
deriving DecidableEq, Repr

/-- Parameter set actually used by `cartoon_effect` after defaulting and
the oddness repair. -/
structure CartoonParams where
  blur_kernel_size : Int
  threshold_block_size : Int
  threshold_c : Int
  bilateral_d : Int
  bilateral_sigma_color : Int
  bilateral_sigma_space : Int
deriving DecidableEq, Repr

/-- Embeds the parameter handling of `ImageProcessor.cartoon_effect`
(`backend/app/services/image_processing.py` lines 76-90): start from the
default dictionary, overlay the supplied keys (`p.update(params)`), then
force the two kernel-size fields odd with `value | 1` (Python bitwise or
on arbitrary integers, i.e. `Int.lor`). No field is range-checked,
clamped or rejected. -/
def cartoon_effect_params (params : CartoonRaw) : CartoonParams :=
  let p : CartoonParams :=
    { blur_kernel_size := params.blur_kernel_size.getD 7
      threshold_block_size := params.threshold_block_size.getD 9
      threshold_c := params.threshold_c.getD 9
      bilateral_d := params.bilateral_d.getD 9
      bilateral_sigma_color := params.bilateral_sigma_color.getD 200
      bilateral_sigma_space := params.bilateral_sigma_space.getD 200 }
  { p with
    blur_kernel_size := Int.lor p.blur_kernel_size 1
    threshold_block_size := Int.lor p.threshold_block_size 1 }

/-- Raw caller-supplied parameter map for the pencil sketch effect
(`backend/app/services/image_processing.py` lines 133-138). -/
structure SketchRaw where
  blur_kernel_size : Option Int := none
  invert : Option Bool := none
deriving DecidableEq, Repr

/-- Parameter set used by `pencil_sketch_effect` after defaulting and the
oddness repair. -/
structure SketchParams where
  blur_kernel_size : Int
  invert : Bool
deriving DecidableEq, Repr

/-- Embeds the parameter handling of `ImageProcessor.pencil_sketch_effect`
(`backend/app/services/image_processing.py` lines 132-141): defaults
`blur_kernel_size = 21`, `invert = True`, overlay the supplied keys, then
force the kernel size odd with `value | 1`. -/
def pencil_sketch_params (params : SketchRaw) : SketchParams :=
  let p : SketchParams :=
    { blur_kernel_size := params.blur_kernel_size.getD 21
      invert := params.invert.getD true }
  { p with blur_kernel_size := Int.lor p.blur_kernel_size 1 }

/-- Declared schema bounds of one numeric field of the pydantic models in
`backend/app/schemas/image.py` (`Field(ge, le)`). -/
structure FieldBounds where
  lo : Int
  hi : Int
deriving DecidableEq, Repr

/-- Declared bound of `CartoonParams.bilateral_d`
(`backend/app/schemas/image.py` line 35): `ge=5, le=15`. -/
def cartoon_schema_bilateral_d : FieldBounds := { lo := 5, hi := 15 }

/-- Declared bound of `CartoonParams.blur_kernel_size`
(`backend/app/schemas/image.py` line 32): `ge=3, le=21`. -/
def cartoon_schema_blur_kernel_size : FieldBounds := { lo := 3, hi := 21 }

/-- Embeds `ImageProcessor.resize_if_needed`
(`backend/app/services/image_processing.py` lines 45-62) on the dimension
pair `(h, w)` with cap `max_dimension`: unchanged when
`max h w ≤ max_dimension`; otherwise the longer side is set to the cap and
the shorter side becomes `int(short * (cap / long))` — exact-rational
semantics, so natural-number floor division. -/
def resize_if_needed (h w max_dimension : Nat) : Nat × Nat :=
  if max h w ≤ max_dimension then (h, w)
  else if h > w then (max_dimension, w * max_dimension / h)
  else (h * max_dimension / w, max_dimension)

/-- Rounding of a non-negative quotient `a / d` to the nearest integer,
ties to even — the rounding applied by OpenCV saturate_cast (cvRound)
when an integer `cv2.divide` result is converted back to uint8. Requires
`d > 0` to be meaningful. -/
def cvRoundDiv (a d : Nat) : Nat :=
  let q := a / d
  let r := a % d
  if 2 * r < d then q
  else if d < 2 * r then q + 1
  else if q % 2 = 0 then q else q + 1

/-- Embeds the dodge step of `ImageProcessor.pencil_sketch_effect`
(`backend/app/services/image_processing.py` line 153):
`cv2.divide(gray, 255 - blurred, scale=256)` per pixel. OpenCV `divide`
on uint8 computes `saturate(round(src1 * scale / src2))` and, by
documented convention, yields 0 wherever the divisor `src2` is 0 — it
does not floor the divisor to 1. Note the scale factor is 256, not 255. -/
def sketch_dodge (gray blurred : Nat) : Nat :=
  let d := 255 - blurred
  if d = 0 then 0 else min (cvRoundDiv (gray * 256) d) 255

/-- Posterization divisor of `ImageProcessor.pop_art_effect`
(`backend/app/services/image_processing.py` line 263):
`div = 256 // num_colors`. -/
def pop_art_div (num_colors : Nat) : Nat := 256 / num_colors

/-- Per-channel posterization of `ImageProcessor.pop_art_effect`
(`backend/app/services/image_processing.py` line 264):
`(value // div) * div + div // 2`. -/
def posterize (num_colors v : Nat) : Nat :=
  let d := pop_art_div num_colors
  v / d * d + d / 2

/-- Embeds the whole-buffer posterization `(boosted // div) * div + div // 2`
applied elementwise to the saturation-boosted pixel grid (rows of channel
values). -/
def posterize_buffer (num_colors : Nat) (img : List (List Nat)) : List (List Nat) :=
  img.map (fun row => row.map (posterize num_colors))

/-- Embeds the dispatch-and-error step of `ImageProcessor.process_image`
(`backend/app/services/image_processing.py` lines 299-303): a style id
missing from the dictionary raises `ValueError(f"Unknown style: {style}")`;
otherwise the selected effect method runs. Image load and save are
storage-collaborator calls, assumed successful here (this function settles
only the dispatch behaviour). -/
def process_image (style : String) : Except String Effect :=
  match style_methods style with
  | none => .error ("Unknown style: " ++ style)
  | some m => .ok m

/-- One `process_job` call in which the attempt outcome is determined by
the services dispatch: when the style is known the pipeline produces
`out` (image readable, storage write succeeds); when it is unknown the
raised `ValueError` is caught by `process_job` and captured. -/
def process_job_dispatch (job : ImageJob) (out : String) (now : Nat) : ImageJob :=
  match process_image job.style with
  | .ok _ => process_job job (.success out now)
  | .error e => process_job job (.failure e)

end Services

namespace Engine

/-- Tags for the five effect methods of the `style_methods` dictionary in
`ImageProcessor.process_image` (`backend/app/image_processing/processor.py`
lines 43-49). -/
inductive Effect where
  | cartoon
  | pencilSketch
  | colorPencil
  | edgePreserve
  | watercolor
deriving DecidableEq, Repr

/-- Style ids known to the engine dispatch table
(`backend/app/image_processing/processor.py` lines 43-49). -/
def style_ids : List String :=
  ["cartoon", "pencil_sketch", "color_pencil", "edge_preserve", "watercolor"]

/-- Embeds `style_methods.get(style, self._apply_cartoon_effect)` of
`ImageProcessor.process_image` (`backend/app/image_processing/processor.py`
line 51): the dictionary lookup with the cartoon effect as the default for
any id that is not a key. The lookup is total — no error path exists for
an unknown style id. -/
def style_method (style : String) : Effect :=
  if style = "cartoon" then .cartoon
  else if style = "pencil_sketch" then .pencilSketch
  else if style = "color_pencil" then .colorPencil
  else if style = "edge_preserve" then .edgePreserve
  else if style = "watercolor" then .watercolor
  else .cartoon

/-- Embeds `ImageProcessor._resize_if_needed`
(`backend/app/image_processing/processor.py` lines 72-80) on the dimension
pair: if `max h w > cap` then `scale = cap / max h w` and both dimensions
become `int(dim * scale)`, exact-rational semantics, so natural-number
floor division; otherwise the image is returned unchanged. Returns
`(height, width)`. -/
def resize_if_needed (h w cap : Nat) : Nat × Nat :=
  if max h w > cap then (h * cap / max h w, w * cap / max h w) else (h, w)

/-- Embeds `ImageProcessor._dodge_blend`
(`backend/app/image_processing/processor.py` lines 252-263) per pixel:
`blend_inv = 255 - blend`, zero entries replaced by 1, then
`base * 255 / blend_inv` computed in float (exact here), clipped to
[0, 255] and truncated to uint8 — that is, floor division followed by an
upper clamp; the lower clamp is vacuous on naturals. -/
def dodge_blend (base blend : Nat) : Nat :=
  let blend_inv := 255 - blend
  let blend_inv := if blend_inv = 0 then 1 else blend_inv
  min (base * 255 / blend_inv) 255

end Engine

namespace Routers

/-- Error raised by the `POST /images/ID/process` endpoint when the job is
already PROCESSING (`backend/app/routers/images.py` lines 115-119): an
HTTP 400 with this detail string — the JobBusyError of the spec. -/
inductive RequestError where
  | jobBusy (detail : String)
deriving DecidableEq, Repr

/-- Embeds the `process_image` endpoint of `backend/app/routers/images.py`
(lines 108-137), after the job has been found: if the job status is
PROCESSING the request is rejected with the busy error before anything is
mutated, so the job is left unchanged; otherwise the optional style
override is applied and the status is set to PROCESSING (the background
task is scheduled, abstracted away here). This is the only code path that
sets a job to PROCESSING in this router. -/
def process_image_request (job : ImageJob) (newStyle : Option String) :
    Except RequestError ImageJob :=
  if job.status = .processing then
    .error (.jobBusy "Image is already being processed")
  else
    let j := match newStyle with
      | some s => { job with style := s }
      | none => job
    .ok { j with status := .processing }

end Routers

namespace OutputGate

/-- Artifact tiers served by the output gate. -/
inductive Artifact where
  | standard
  | hd
deriving DecidableEq, Repr

/-- Failure of an HD request without unlock: the HTTP 402 that
`APIClient.get_processed_image` (`frontend/api/client.py` lines 201-216)
maps to its payment-required error. -/
inductive GateError where
  | paymentRequired
deriving DecidableEq, Repr

/-- Modelled from the spec: the backend handler of
`GET /images/ID/processed?hd=` — the OutputGate `resolveOutput(job, requestHD)`
of spec section 4.6 — is not present under the backend sources; only its
client caller `APIClient.get_processed_image` (`frontend/api/client.py`
lines 201-216, which maps HTTP 402 to a payment error) and the persisted
flag `ImageJob.is_hd_unlocked` (`backend/app/models/image_job.py` line 60,
`"Y"` once unlocked) exist. Following the spec words: if `requestHD` is
false the standard artifact is always returned; if true, the HD artifact
is returned only when the job flag is unlocked, otherwise the request
fails with the payment-required error. The gate only reads the job, so it
is returned unchanged alongside the result. -/
def resolveOutput (job : ImageJob) (requestHD : Bool) :
    (Except GateError Artifact) × ImageJob :=
  if requestHD = false then (.ok .standard, job)
  else if job.is_hd_unlocked = "Y" then (.ok .hd, job)
  else (.error .paymentRequired, job)

end OutputGate

/-- The color-dodge formula exactly as the spec states it: output pixel is
`clamp(G * 255 / (255 - B), 0, 255)` with the denominator `255 - B`
floored to 1, read with integer (floor) division; the lower clamp is
vacuous on naturals. Stated from the spec words for comparison with the
two implementations. -/
def dodge_formula (G B : Nat) : Nat :=
  min (G * 255 / max (255 - B) 1) 255

/-!  Helper lemmas on bitwise or with 1, shared by the parameter claims. -/

theorem nat_lor_one_mod_two (m : ℕ) : (m ||| 1) % 2 = 1 := by
  have h : (m ||| 1).testBit 0 = true := by
    rw [Nat.testBit_lor]
    simp
  rw [Nat.testBit_zero] at h
  exact of_decide_eq_true h

theorem nat_lor_one_of_odd (m : ℕ) (h : m % 2 = 1) : m ||| 1 = m := by
  apply Nat.eq_of_testBit_eq
  intro i
  cases i with
  | zero =>
      rw [Nat.testBit_lor, Nat.testBit_zero, Nat.testBit_zero, h]
      simp
  | succ i =>
      rw [Nat.testBit_lor]
      have h1 : Nat.testBit 1 (i + 1) = false := by
        rw [Nat.testBit_succ]
        simp
      rw [h1, Bool.or_false]

theorem nat_ldiff_one_mod_two (m : ℕ) : Nat.ldiff m 1 % 2 = 0 := by
  have h : (Nat.ldiff m 1).testBit 0 = false := by
    rw [Nat.testBit_ldiff]
    simp
  rw [Nat.testBit_zero] at h
  have h2 := of_decide_eq_false h
  omega

theorem nat_ldiff_one_of_even (m : ℕ) (h : m % 2 = 0) : Nat.ldiff m 1 = m := by
  apply Nat.eq_of_testBit_eq
  intro i
  cases i with
  | zero =>
      rw [Nat.testBit_ldiff, Nat.testBit_zero, Nat.testBit_zero, h]
      simp
  | succ i =>
      rw [Nat.testBit_ldiff]
      have h1 : Nat.testBit 1 (i + 1) = false := by
        rw [Nat.testBit_succ]
        simp
      rw [h1, Bool.not_false, Bool.and_true]

theorem int_lor_one_odd (v : ℤ) : Odd (Int.lor v 1) := by
  rw [Int.odd_iff]
  cases v with
  | ofNat m =>
      have he : Int.lor (Int.ofNat m) 1 = Int.ofNat (m ||| 1) := rfl
      rw [he]
      have h := nat_lor_one_mod_two m
      rw [Int.ofNat_eq_natCast]
      omega
  | negSucc m =>
      have he : Int.lor (Int.negSucc m) 1 = Int.negSucc (Nat.ldiff m 1) := rfl
      rw [he, Int.negSucc_eq]
      have h := nat_ldiff_one_mod_two m
      omega

theorem int_lor_one_of_odd (v : ℤ) (h : v % 2 = 1) : Int.lor v 1 = v := by
  cases v with
  | ofNat m =>
      have hm : m % 2 = 1 := by
        rw [Int.ofNat_eq_natCast] at h
        omega
      show Int.ofNat (m ||| 1) = Int.ofNat m
      rw [nat_lor_one_of_odd m hm]
  | negSucc m =>
      have hm : m % 2 = 0 := by
        rw [Int.negSucc_eq] at h
        omega
      show Int.negSucc (Nat.ldiff m 1) = Int.negSucc m
      rw [nat_ldiff_one_of_even m hm]

/-!  Helper lemmas on the job lifecycle fold, shared by the invariant claims. -/

theorem run_output_iff (as : List Services.Attempt) (j : ImageJob) :
    (as.foldl Services.process_job j).output_path ≠ none ↔
      (as.any Services.Attempt.isSuccess = true ∨ j.output_path ≠ none) := by
  induction as generalizing j with
  | nil => simp
  | cons a as ih =>
      cases a with
      | success p t =>
          simp [Services.process_job, ih, Services.Attempt.isSuccess]
      | failure m =>
          simp [Services.process_job, ih, Services.Attempt.isSuccess]

theorem run_error_iff (as : List Services.Attempt) (j : ImageJob) :
    (as.foldl Services.process_job j).error_message ≠ none ↔
      (as.any Services.Attempt.isFailure = true ∨ j.error_message ≠ none) := by
  induction as generalizing j with
  | nil => simp
  | cons a as ih =>
      cases a with
      | success p t =>
          simp [Services.process_job, ih, Services.Attempt.isFailure]
      | failure m =>
          simp [Services.process_job, ih, Services.Attempt.isFailure]

theorem run_status_inv (as : List Services.Attempt) (j : ImageJob)
    (h1 : j.status = .done → j.output_path ≠ none)
    (h2 : j.status = .failed → j.error_message ≠ none) :
    ((as.foldl Services.process_job j).status = .done →
      (as.foldl Services.process_job j).output_path ≠ none) ∧
    ((as.foldl Services.process_job j).status = .failed →
      (as.foldl Services.process_job j).error_message ≠ none) := by
  induction as generalizing j with
  | nil => exact ⟨h1, h2⟩
  | cons a as ih =>
      rw [List.foldl_cons]
      apply ih
      · cases a <;> simp [Services.process_job]
      · cases a <;> simp [Services.process_job]

/-- C1 counterexample: the engine dispatch
(`backend/app/image_processing/processor.py` line 51) silently maps the
unknown style id "nonexistent" to the same method as the default style
"cartoon" instead of failing: processing an unknown style succeeds with
the cartoon effect, contradicting the claim that no unknown style is ever
silently mapped to a default style. -/
theorem c1_engine_silent_fallback :
    "nonexistent" ∉ Engine.style_ids ∧
    Engine.style_method "nonexistent" = Engine.style_method "cartoon" ∧
    Engine.style_method "nonexistent" = Engine.Effect.cartoon := by
  refine ⟨by decide, rfl, rfl⟩

/-- C1 amended: in the services pipeline
(`backend/app/services/image_processing.py` lines 290-301 together with
`ImageJobService.process_job`), every style id outside the known six fails
with `ValueError("Unknown style: ...")` and the job transitions to FAILED
with a message containing the style id; the engine in
`backend/app/image_processing/processor.py`, by contrast, silently maps
unknown style ids to the default cartoon effect (see the
counterexample). -/
theorem c1_services_unknown_style_fails (style out : String) (t : Nat)
    (h : style ∉ Services.style_ids) :
    (Services.process_job_dispatch (Services.create_job style) out t).status = .failed ∧
    ∃ pre,
      (Services.process_job_dispatch (Services.create_job style) out t).error_message
        = some (pre ++ style) := by
  have hm : Services.style_methods style = none := by
    simp only [Services.style_ids, List.mem_cons, List.not_mem_nil, or_false] at h
    push_neg at h
    obtain ⟨h1, h2, h3, h4, h5, h6⟩ := h
    simp [Services.style_methods, h1, h2, h3, h4, h5, h6]
  have hd : Services.process_image style = .error ("Unknown style: " ++ style) := by
    rw [Services.process_image, hm]
  constructor
  · simp [Services.process_job_dispatch, Services.create_job, hd, Services.process_job]
  · refine ⟨"Unknown style: ", ?_⟩
    simp [Services.process_job_dispatch, Services.create_job, hd, Services.process_job]

/-- Witness for C1 at the style id "nonexistent" of the end-to-end
scenario. -/
theorem c1_witness :
    "nonexistent" ∉ Services.style_ids ∧
    ((Services.process_job_dispatch
        (Services.create_job "nonexistent") "out.png" 0).status = .failed ∧
     ∃ pre,
       (Services.process_job_dispatch
         (Services.create_job "nonexistent") "out.png" 0).error_message
           = some (pre ++ "nonexistent")) :=
  ⟨by decide, c1_services_unknown_style_fails "nonexistent" "out.png" 0 (by decide)⟩

/-- C2 counterexample: the invariant fails on a reachable state. Starting
from `create_job`, a failed attempt (captured message "boom") followed by
a successful re-attempt leaves the job DONE while `error_message` is still
the stale "boom" — `process_job` never clears the error message on
success (nor the old output on failure), so the biconditional invariant is
violated after re-attempts. -/
theorem c2_invariant_counterexample :
    ¬ ∀ (style : String) (as : List Services.Attempt),
        (((Services.run_job style as).output_path ≠ none) ↔
          (Services.run_job style as).status = .done) ∧
        (((Services.run_job style as).error_message ≠ none) ↔
          (Services.run_job style as).status = .failed) := by
  intro h
  have h2 := (h "cartoon" [.failure "boom", .success "out.png" 0]).2
  simp [Services.run_job, Services.create_job, Services.process_job] at h2

/-- C2 amended: for every state reachable by `create_job` followed by a
sequence of `process_job` calls, the output reference is non-null iff some
attempt so far succeeded, and the error message is non-null iff some
attempt so far failed; DONE still implies a non-null output and FAILED a
non-null error message; and the original biconditional invariant does hold
for histories of at most one `process_job` call (it breaks only on
re-attempts, because stale fields are never cleared). -/
theorem c2_output_error_invariant_amended (style : String) (as : List Services.Attempt) :
    ((Services.run_job style as).output_path ≠ none ↔
      as.any Services.Attempt.isSuccess = true) ∧
    ((Services.run_job style as).error_message ≠ none ↔
      as.any Services.Attempt.isFailure = true) ∧
    ((Services.run_job style as).status = .done →
      (Services.run_job style as).output_path ≠ none) ∧
    ((Services.run_job style as).status = .failed →
      (Services.run_job style as).error_message ≠ none) ∧
    (as.length ≤ 1 →
      (((Services.run_job style as).output_path ≠ none ↔
         (Services.run_job style as).status = .done) ∧
       ((Services.run_job style as).error_message ≠ none ↔
         (Services.run_job style as).status = .failed))) := by
  have hinv := run_status_inv as (Services.create_job style)
    (by simp [Services.create_job]) (by simp [Services.create_job])
  refine ⟨?_, ?_, hinv.1, hinv.2, ?_⟩
  · rw [Services.run_job, run_output_iff]
    simp [Services.create_job]
  · rw [Services.run_job, run_error_iff]
    simp [Services.create_job]
  · intro hlen
    rcases as with _ | ⟨a, _ | ⟨b, rest⟩⟩
    · simp [Services.run_job, Services.create_job]
    · cases a <;>
        simp [Services.run_job, Services.create_job, Services.process_job]
    · simp at hlen

/-- Witness for C2 at a single failed attempt. -/
theorem c2_witness :
    ((Services.run_job "cartoon" [.failure "boom"]).output_path ≠ none ↔
      List.any [Services.Attempt.failure "boom"] Services.Attempt.isSuccess = true) ∧
    ((Services.run_job "cartoon" [.failure "boom"]).error_message ≠ none ↔
      List.any [Services.Attempt.failure "boom"] Services.Attempt.isFailure = true) ∧
    ((Services.run_job "cartoon" [.failure "boom"]).status = .done →
      (Services.run_job "cartoon" [.failure "boom"]).output_path ≠ none) ∧
    ((Services.run_job "cartoon" [.failure "boom"]).status = .failed →
      (Services.run_job "cartoon" [.failure "boom"]).error_message ≠ none) ∧
    (List.length [Services.Attempt.failure "boom"] ≤ 1 →
      (((Services.run_job "cartoon" [.failure "boom"]).output_path ≠ none ↔
         (Services.run_job "cartoon" [.failure "boom"]).status = .done) ∧
       ((Services.run_job "cartoon" [.failure "boom"]).error_message ≠ none ↔
         (Services.run_job "cartoon" [.failure "boom"]).status = .failed))) :=
  c2_output_error_invariant_amended "cartoon" [.failure "boom"]

/-- C3: a `process_job` call whose attempt raises any exception sets the
status to FAILED with the captured message and leaves the output
reference (and processed timestamp) exactly what it was before the
attempt; the output reference is overwritten only by the success branch,
after the new output has been produced. -/
theorem c3_failure_preserves_output (job : ImageJob) (m p : String) (t : Nat) :
    (Services.process_job job (.failure m)).output_path = job.output_path ∧
    (Services.process_job job (.failure m)).processed_at = job.processed_at ∧
    (Services.process_job job (.failure m)).status = .failed ∧
    (Services.process_job job (.failure m)).error_message = some m ∧
    (Services.process_job job (.success p t)).output_path = some p ∧
    (Services.process_job job (.success p t)).status = .done := by
  simp [Services.process_job]

/-- C4: a processing request on a job already in PROCESSING fails with the
busy error before any mutation (the job is left unchanged); a request on a
FAILED job is accepted and moves the job to PROCESSING; and every accepted
request — the only way into PROCESSING — starts from a non-PROCESSING
status. -/
theorem c4_processing_guard (job : ImageJob) (s : Option String) :
    (job.status = .processing →
      Routers.process_image_request job s
        = .error (.jobBusy "Image is already being processed")) ∧
    (job.status = .failed →
      ∃ j, Routers.process_image_request job s = .ok j ∧ j.status = .processing) ∧
    (∀ j, Routers.process_image_request job s = .ok j →
      job.status ≠ .processing ∧ j.status = .processing) := by
  unfold Routers.process_image_request
  refine ⟨?_, ?_, ?_⟩
  · intro h
    rw [if_pos h]
  · intro h
    rw [if_neg (by rw [h]; exact fun hc => JobStatus.noConfusion hc)]
    cases s with
    | none => exact ⟨_, rfl, rfl⟩
    | some sty => exact ⟨_, rfl, rfl⟩
  · intro j hj
    by_cases hp : job.status = .processing
    · rw [if_pos hp] at hj
      exact absurd hj (fun hc => Except.noConfusion hc)
    · rw [if_neg hp] at hj
      refine ⟨hp, ?_⟩
      cases s with
      | none =>
          cases hj
          rfl
      | some sty =>
          cases hj
          rfl

/-- Witness for C4: a PROCESSING job is rejected with the busy error, and
a FAILED job is accepted into PROCESSING. -/
theorem c4_witness :
    Routers.process_image_request { style := "cartoon", status := .processing } none
      = .error (.jobBusy "Image is already being processed") ∧
    ∃ j, Routers.process_image_request { style := "cartoon", status := .failed } none
      = .ok j ∧ j.status = .processing :=
  ⟨(c4_processing_guard { style := "cartoon", status := .processing } none).1 rfl,
   (c4_processing_guard { style := "cartoon", status := .failed } none).2.1 rfl⟩

/-- C5: the output gate modelled from the spec over the persisted
`is_hd_unlocked` flag of `ImageJob`: a non-HD request always resolves to
the standard artifact; an HD request resolves to the HD artifact exactly
when the flag is unlocked and otherwise fails with the payment-required
error; in every case the job is returned unchanged. -/
theorem c5_output_gate (job : ImageJob) :
    OutputGate.resolveOutput job false = (.ok .standard, job) ∧
    (job.is_hd_unlocked = "Y" →
      OutputGate.resolveOutput job true = (.ok .hd, job)) ∧
    (job.is_hd_unlocked ≠ "Y" →
      OutputGate.resolveOutput job true = (.error .paymentRequired, job)) := by
  unfold OutputGate.resolveOutput
  refine ⟨by simp, fun h => by simp [h], fun h => by simp [h]⟩

/-- Witness for C5 at a locked and an unlocked job. -/
theorem c5_witness :
    OutputGate.resolveOutput { style := "cartoon" } false
      = (.ok .standard, { style := "cartoon" }) ∧
    OutputGate.resolveOutput { style := "cartoon", is_hd_unlocked := "Y" } true
      = (.ok .hd, { style := "cartoon", is_hd_unlocked := "Y" }) ∧
    OutputGate.resolveOutput { style := "cartoon" } true
      = (.error .paymentRequired, { style := "cartoon" }) :=
  ⟨(c5_output_gate { style := "cartoon" }).1,
   (c5_output_gate { style := "cartoon", is_hd_unlocked := "Y" }).2.1 rfl,
   (c5_output_gate { style := "cartoon" }).2.2 (by decide)⟩

/-- C6: every field declared "must be odd" (the two kernel-size fields of
the cartoon effect and the kernel-size field of the pencil sketch effect)
is normalized to `value | 1`, which is odd for every supplied integer; a
supplied 8 becomes 9; an already-odd supplied value is unchanged; the
normalization is a total function, so no input is rejected for
evenness. -/
theorem c6_must_be_odd (raw : Services.CartoonRaw) (raws : Services.SketchRaw)
    (v : Int) (hv : Odd v) :
    Odd (Services.cartoon_effect_params raw).blur_kernel_size ∧
    Odd (Services.cartoon_effect_params raw).threshold_block_size ∧
    Odd (Services.pencil_sketch_params raws).blur_kernel_size ∧
    (Services.pencil_sketch_params
      { raws with blur_kernel_size := some 8 }).blur_kernel_size = 9 ∧
    (Services.cartoon_effect_params
      { raw with blur_kernel_size := some 8 }).blur_kernel_size = 9 ∧
    (Services.pencil_sketch_params
      { raws with blur_kernel_size := some v }).blur_kernel_size = v := by
  refine ⟨int_lor_one_odd _, int_lor_one_odd _, int_lor_one_odd _, rfl, rfl, ?_⟩
  show Int.lor v 1 = v
  exact int_lor_one_of_odd v (Int.odd_iff.mp hv)

/-- Witness for C6 at the default parameter maps and the already-odd
supplied value 5. -/
theorem c6_witness :
    Odd (5 : ℤ) ∧
    (Odd (Services.cartoon_effect_params {}).blur_kernel_size ∧
     Odd (Services.cartoon_effect_params {}).threshold_block_size ∧
     Odd (Services.pencil_sketch_params {}).blur_kernel_size ∧
     (Services.pencil_sketch_params
       { blur_kernel_size := some 8 }).blur_kernel_size = 9 ∧
     (Services.cartoon_effect_params
       { blur_kernel_size := some 8 }).blur_kernel_size = 9 ∧
     (Services.pencil_sketch_params
       { blur_kernel_size := some 5 }).blur_kernel_size = 5) :=
  ⟨⟨2, by decide⟩, c6_must_be_odd {} {} 5 ⟨2, by decide⟩⟩

/-- C7 counterexample: the claim says every supplied numeric value is
clamped into the schema's [min, max]. The code does no clamping: a
supplied `bilateral_d = 1000` reaches the pipeline as 1000, outside the
declared bound `ge=5, le=15` of `CartoonParams.bilateral_d`. -/
theorem c7_no_clamp_counterexample :
    (Services.cartoon_effect_params { bilateral_d := some 1000 }).bilateral_d = 1000 ∧
    Services.cartoon_schema_bilateral_d.hi = 15 ∧
    ¬ ((Services.cartoon_effect_params { bilateral_d := some 1000 }).bilateral_d
        ≤ Services.cartoon_schema_bilateral_d.hi) := by
  refine ⟨rfl, rfl, by decide⟩

/-- C7 amended: the parameter handling never clamps. Every supplied
numeric value is used by the pipeline exactly as supplied — after the
`| 1` oddness repair on the kernel-size fields — regardless of the
schema's declared [min, max]; only missing fields take the schema
defaults. -/
theorem c7_passthrough_amended (v : Int) :
    (Services.cartoon_effect_params { bilateral_d := some v }).bilateral_d = v ∧
    (Services.cartoon_effect_params { threshold_c := some v }).threshold_c = v ∧
    (Services.cartoon_effect_params
      { bilateral_sigma_color := some v }).bilateral_sigma_color = v ∧
    (Services.cartoon_effect_params
      { bilateral_sigma_space := some v }).bilateral_sigma_space = v ∧
    (Services.cartoon_effect_params
      { blur_kernel_size := some v }).blur_kernel_size = Int.lor v 1 ∧
    (Services.pencil_sketch_params
      { blur_kernel_size := some v }).blur_kernel_size = Int.lor v 1 :=
  ⟨rfl, rfl, rfl, rfl, rfl, rfl⟩

/-!  Helper lemmas for the resize claims. -/

theorem nat_lt_div_succ_mul (a b : Nat) (hb : 0 < b) : a < (a / b + 1) * b := by
  have h1 := Nat.div_add_mod a b
  have h2 := Nat.mod_lt a hb
  calc a = b * (a / b) + a % b := h1.symm
    _ < b * (a / b) + b := by omega
    _ = (a / b + 1) * b := by ring

/-- The two resize implementations agree: in the oversized case the
services version scales the longer side to exactly the cap and floors the
shorter side, which is the same pair the engine computes by flooring both
scaled dimensions. -/
theorem resize_services_eq_engine (h w cap : Nat) :
    Services.resize_if_needed h w cap = Engine.resize_if_needed h w cap := by
  unfold Services.resize_if_needed Engine.resize_if_needed
  rcases le_or_lt (max h w) cap with hle | hlt
  · rw [if_pos hle, if_neg (not_lt.mpr hle)]
  · rw [if_neg (not_le.mpr hlt), if_pos hlt]
    rcases lt_or_le w h with hw | hw
    · have hm : max h w = h := max_eq_left hw.le
      have hh : 0 < h := Nat.lt_of_le_of_lt (Nat.zero_le w) hw
      rw [if_pos hw, hm, Nat.mul_div_cancel_left cap hh]
    · have hm : max h w = w := max_eq_right hw
      have hw0 : 0 < w := Nat.lt_of_le_of_lt (Nat.zero_le cap) (hm ▸ hlt)
      rw [if_neg (not_lt.mpr hw), hm, Nat.mul_div_cancel_left cap hw0]

theorem services_resize_oversized (h w cap : Nat) (hlt : cap < max h w) :
    Services.resize_if_needed h w cap = (h * cap / max h w, w * cap / max h w) := by
  rw [resize_services_eq_engine]
  unfold Engine.resize_if_needed
  rw [if_pos hlt]

/-- C8: the resize pre-step (in both implementations, which agree
pointwise) never increases either dimension: an image within the cap is
returned unchanged, and an oversized one is scaled so that the longer
side equals the cap exactly and each dimension is the floor of its exact
proportional value — the floor characterization
`d * max h w ≤ dim * cap < (d + 1) * max h w` states that each output
dimension is within one pixel of exact aspect-preserving scaling. -/
theorem c8_resize_never_upscales (h w cap : Nat) :
    Services.resize_if_needed h w cap = Engine.resize_if_needed h w cap ∧
    (max h w ≤ cap → Services.resize_if_needed h w cap = (h, w)) ∧
    (cap < max h w →
      (Services.resize_if_needed h w cap).1 ≤ h ∧
      (Services.resize_if_needed h w cap).2 ≤ w ∧
      max (Services.resize_if_needed h w cap).1 (Services.resize_if_needed h w cap).2 = cap ∧
      (Services.resize_if_needed h w cap).1 * max h w ≤ h * cap ∧
      h * cap < ((Services.resize_if_needed h w cap).1 + 1) * max h w ∧
      (Services.resize_if_needed h w cap).2 * max h w ≤ w * cap ∧
      w * cap < ((Services.resize_if_needed h w cap).2 + 1) * max h w) := by
  refine ⟨resize_services_eq_engine h w cap, ?_, ?_⟩
  · intro hle
    unfold Services.resize_if_needed
    rw [if_pos hle]
  · intro hlt
    have hm : 0 < max h w := Nat.lt_of_le_of_lt (Nat.zero_le cap) hlt
    rw [services_resize_oversized h w cap hlt]
    refine ⟨?_, ?_, ?_, Nat.div_mul_le_self _ _, nat_lt_div_succ_mul _ _ hm,
      Nat.div_mul_le_self _ _, nat_lt_div_succ_mul _ _ hm⟩
    · calc h * cap / max h w ≤ h * max h w / max h w :=
            Nat.div_le_div_right (Nat.mul_le_mul_left h hlt.le)
        _ = h := Nat.mul_div_cancel h hm
    · calc w * cap / max h w ≤ w * max h w / max h w :=
            Nat.div_le_div_right (Nat.mul_le_mul_left w hlt.le)
        _ = w := Nat.mul_div_cancel w hm
    · rcases Nat.le_total h w with hw | hw
      · have hm2 : max h w = w := max_eq_right hw
        have hw0 : 0 < w := hm2 ▸ hm
        have hcap : w * cap / max h w = cap := by
          rw [hm2, Nat.mul_div_cancel_left cap hw0]
        have hle2 : h * cap / max h w ≤ cap := by
          calc h * cap / max h w ≤ w * cap / max h w :=
                Nat.div_le_div_right (Nat.mul_le_mul_right cap hw)
            _ = cap := hcap
        rw [hcap, max_eq_right hle2]
      · have hm2 : max h w = h := max_eq_left hw
        have hh0 : 0 < h := hm2 ▸ hm
        have hcap : h * cap / max h w = cap := by
          rw [hm2, Nat.mul_div_cancel_left cap hh0]
        have hle2 : w * cap / max h w ≤ cap := by
          calc w * cap / max h w ≤ h * cap / max h w :=
                Nat.div_le_div_right (Nat.mul_le_mul_right cap hw)
            _ = cap := hcap
        rw [hcap, max_eq_left hle2]

/-- Witness for C8: a 4000-wide by 3000-high input with cap 2000 shrinks
to 2000 by 1500, and a small image is untouched. -/
theorem c8_witness :
    (Services.resize_if_needed 100 50 2000 = (100, 50)) ∧
    ((Services.resize_if_needed 3000 4000 2000).1 ≤ 3000 ∧
     (Services.resize_if_needed 3000 4000 2000).2 ≤ 4000 ∧
     max (Services.resize_if_needed 3000 4000 2000).1
       (Services.resize_if_needed 3000 4000 2000).2 = 2000 ∧
     (Services.resize_if_needed 3000 4000 2000).1 * max 3000 4000 ≤ 3000 * 2000 ∧
     3000 * 2000 < ((Services.resize_if_needed 3000 4000 2000).1 + 1) * max 3000 4000 ∧
     (Services.resize_if_needed 3000 4000 2000).2 * max 3000 4000 ≤ 4000 * 2000 ∧
     4000 * 2000 < ((Services.resize_if_needed 3000 4000 2000).2 + 1) * max 3000 4000) :=
  ⟨(c8_resize_never_upscales 100 50 2000).2.1 (by decide),
   (c8_resize_never_upscales 3000 4000 2000).2.2 (by decide)⟩

/-- C9 counterexample: the dodge step actually used by the services
pencil-sketch pipeline is `cv2.divide(gray, 255 - blurred, scale=256)`,
which returns 0 where the divisor `255 - B` is 0 (OpenCV convention) and
scales by 256, not 255 — at `G = 7, B = 255` it outputs 0 where the
claimed formula (denominator floored to 1) outputs 255. -/
theorem c9_services_dodge_counterexample :
    Services.sketch_dodge 7 255 = 0 ∧
    dodge_formula 7 255 = 255 ∧
    Services.sketch_dodge 7 255 ≠ dodge_formula 7 255 := by
  decide

/-- C9 amended: the engine `_dodge_blend` does compute the claimed
formula on every pair of pixel values: its floored-to-1 denominator
equals `max (255 - B) 1`, which is never zero, and its result is
`clamp(G * 255 / (255 - B), 0, 255)` with truncating division; the
services pencil-sketch pipeline instead computes
`saturate(round(G * 256 / (255 - B)))` with 0 on a zero divisor (see the
counterexample). -/
theorem c9_engine_dodge_matches_formula (base blend : Nat) :
    Engine.dodge_blend base blend = dodge_formula base blend ∧
    0 < max (255 - blend) 1 := by
  constructor
  · by_cases hb : 255 - blend = 0
    · simp [Engine.dodge_blend, dodge_formula, hb]
    · have h1 : max (255 - blend) 1 = 255 - blend :=
        Nat.max_eq_left (Nat.one_le_iff_ne_zero.mpr hb)
      simp [Engine.dodge_blend, dodge_formula, hb, h1]
  · exact Nat.lt_of_lt_of_le Nat.zero_lt_one (Nat.le_max_right _ _)

/-- C10: with `1 ≤ num_colors ≤ 256` the pop-art posterization is total
and shape-preserving: the divisor `256 // num_colors` is nonzero, so the
per-pixel integer divisions are by a positive number, and the output
buffer has the input's shape (same row count, same row lengths). The
precondition is required: no guard restricts `num_colors`, and for any
`num_colors > 256` the divisor `256 // num_colors` is 0 — the
division-by-zero branch of the per-pixel formula. -/
theorem c10_pop_art_total (k : Nat) (img : List (List Nat))
    (h1 : 1 ≤ k) (h2 : k ≤ 256) :
    0 < Services.pop_art_div k ∧
    (Services.posterize_buffer k img).length = img.length ∧
    (Services.posterize_buffer k img).map List.length = img.map List.length ∧
    (∀ m : Nat, 256 < m → Services.pop_art_div m = 0) := by
  refine ⟨Nat.div_pos h2 h1, ?_, ?_, fun m hm => Nat.div_eq_of_lt hm⟩
  · simp [Services.posterize_buffer]
  · simp [Services.posterize_buffer, List.map_map]

/-- Witness for C10 at the default `num_colors = 8` on a two-row buffer. -/
theorem c10_witness :
    0 < Services.pop_art_div 8 ∧
    (Services.posterize_buffer 8 [[0, 255], [128]]).length = [[0, 255], [128]].length ∧
    (Services.posterize_buffer 8 [[0, 255], [128]]).map List.length
      = [[0, 255], [128]].map List.length ∧
    (∀ m : Nat, 256 < m → Services.pop_art_div m = 0) :=
  c10_pop_art_total 8 [[0, 255], [128]] (by decide) (by decide)

end Toonify
